import Mathlib

/-!
Shallow embedding of the shared-memory probe
`tests/integration/project/files/test_shm.c` and proofs of its
specified properties.

The probe is a single linear C `main`:

  int fd = shm_open ("/foo", O_RDONLY | O_CREAT, S_IRWXU);
  if (fd < 0) { fprintf (stderr, "Failed to open shm: ...", strerror (errno)); exit(1); }
  int success = shm_unlink ("/foo");
  if (success < 0) { fprintf (stderr, "Failed to close shm: ...", strerror (errno)); exit(2); }
  close (fd);
  return 0;

We embed it as a function parametric over an abstract platform providing
the two system calls `shm_open` and `shm_unlink`, threading a platform
state.  The run records the observable trace (system calls issued,
stderr output, descriptor closes) and the exit status.
-/

namespace TestShm

/-- Linux/glibc value of the flag `O_RDONLY` (read-only access mode). -/
def O_RDONLY : Nat := 0

/-- Linux/glibc value of the flag `O_CREAT` (octal 0100): create the
object if it does not exist. -/
def O_CREAT : Nat := 64

/-- Linux/glibc mask `O_ACCMODE` selecting the access-mode bits. -/
def O_ACCMODE : Nat := 3

/-- Linux/glibc permission bits `S_IRWXU` (octal 0700): owner read,
write and execute. -/
def S_IRWXU : Nat := 448

/-- Owner-read permission bit `S_IRUSR` (octal 0400). -/
def S_IRUSR : Nat := 256

/-- Owner-write permission bit `S_IWUSR` (octal 0200). -/
def S_IWUSR : Nat := 128

/-- Owner-execute permission bit `S_IXUSR` (octal 0100). -/
def S_IXUSR : Nat := 64

/-- Outcome of a system call: either a value, or a failure carrying the
human-readable reason produced by the platform (the C side reads it via
`strerror (errno)`). -/
inductive SysResult (α : Type) where
  | ok : α → SysResult α
  | err : String → SysResult α
  deriving Repr, DecidableEq

/-- The arguments of a `shm_open` call: object name, flag bits, and the
permission bits used on creation. -/
structure OpenCall where
  name : String
  flags : Nat
  mode : Nat
  deriving Repr, DecidableEq

/-- The one `shm_open` call the probe issues:
`shm_open ("/foo", O_RDONLY | O_CREAT, S_IRWXU)`
(line 12 of `test_shm.c`). -/
def probeOpenCall : OpenCall :=
  { name := "/foo", flags := O_RDONLY ||| O_CREAT, mode := S_IRWXU }

/-- An observable event of a probe run: a system call issued, a line
written to the error stream, or a `close` of a file descriptor. -/
inductive Event where
  | shmOpen : OpenCall → Event
  | shmUnlink : String → Event
  | stderrMsg : String → Event
  | closeFd : Nat → Event
  deriving Repr, DecidableEq

/-- The observable outcome of one probe run: the process exit status
and the trace of events, in program order. -/
structure RunResult where
  exitStatus : Nat
  events : List Event
  deriving Repr, DecidableEq

/-- An abstract platform with state `σ`, providing the two shared-memory
system calls the probe uses.  `shm_open` returns a file descriptor on
success; both calls return the error reason on failure. -/
structure Platform (σ : Type) where
  shm_open : σ → OpenCall → SysResult Nat × σ
  shm_unlink : σ → String → SysResult Unit × σ

/-- Embedding of `main` of `test_shm.c` over an abstract platform.
Mirrors the C line by line: issue `shm_open` with `probeOpenCall`; on
failure print `Failed to open shm: <reason>` to stderr and exit 1; else
issue `shm_unlink ("/foo")`; on failure print `Failed to close shm:
<reason>` to stderr and exit 2; else `close (fd)` and return 0. -/
def run_main {σ : Type} (P : Platform σ) (s : σ) : RunResult × σ :=
  match P.shm_open s probeOpenCall with
  | (SysResult.err reason, s1) =>
      (⟨1, [Event.shmOpen probeOpenCall,
            Event.stderrMsg ("Failed to open shm: " ++ reason ++ "\n")]⟩, s1)
  | (SysResult.ok fd, s1) =>
      match P.shm_unlink s1 "/foo" with
      | (SysResult.err reason, s2) =>
          (⟨2, [Event.shmOpen probeOpenCall,
                Event.shmUnlink "/foo",
                Event.stderrMsg ("Failed to close shm: " ++ reason ++ "\n")]⟩, s2)
      | (SysResult.ok _, s2) =>
          (⟨0, [Event.shmOpen probeOpenCall,
                Event.shmUnlink "/foo",
                Event.closeFd fd]⟩, s2)

/-- The `shm_open` calls recorded in a trace, in order. -/
def openCalls (es : List Event) : List OpenCall :=
  es.filterMap fun e =>
    match e with
    | Event.shmOpen c => some c
    | _ => none

/-- The stderr lines recorded in a trace, in order. -/
def stderrMsgs (es : List Event) : List String :=
  es.filterMap fun e =>
    match e with
    | Event.stderrMsg m => some m
    | _ => none

/-- A shared-memory namespace under normal platform semantics: the set
of present object names with their permission bits, as an association
list. -/
abbrev NS : Type := List (String × Nat)

/-- Normal POSIX semantics of `shm_open` with `O_CREAT` and without
`O_EXCL`: open the existing object if the name is present, otherwise
create it with the requested permission bits; either way the call
succeeds and returns a descriptor (modelled as 3, the first free
descriptor after the standard streams). -/
def normalOpen (ns : NS) (c : OpenCall) : SysResult Nat × NS :=
  match List.lookup c.name ns with
  | some _ => (SysResult.ok 3, ns)
  | none => (SysResult.ok 3, (c.name, c.mode) :: ns)

/-- Normal POSIX semantics of `shm_unlink`: remove the name from the
namespace if present, otherwise fail with a not-found error
(`strerror (ENOENT)`). -/
def normalUnlink (ns : NS) (name : String) : SysResult Unit × NS :=
  match List.lookup name ns with
  | some _ => (SysResult.ok (), ns.filter fun p => !(p.1 == name))
  | none => (SysResult.err "No such file or directory", ns)

/-- The platform under normal POSIX shared-memory semantics. -/
def normalPlat : Platform NS :=
  { shm_open := normalOpen, shm_unlink := fun s n => normalUnlink s n }

/-- A platform whose `shm_open` fails with a permission error (used for
concrete witness runs). -/
def failOpenPlat : Platform Unit :=
  { shm_open := fun s _ => (SysResult.err "Permission denied", s),
    shm_unlink := fun s _ => (SysResult.ok (), s) }

/-- A platform whose `shm_open` succeeds but whose `shm_unlink` fails
with a not-found error (used for concrete witness runs). -/
def unlinkFailPlat : Platform Unit :=
  { shm_open := fun s _ => (SysResult.ok 3, s),
    shm_unlink := fun s _ => (SysResult.err "No such file or directory", s) }

/-- A platform on which both calls succeed (used for concrete witness
runs). -/
def allOkPlat : Platform Unit :=
  { shm_open := fun s _ => (SysResult.ok 3, s),
    shm_unlink := fun s _ => (SysResult.ok (), s) }

/-- Unfolding lemma: a run whose `shm_open` fails. -/
theorem run_main_open_err {σ : Type} (P : Platform σ) (s : σ) (r : String) (s1 : σ)
    (h : P.shm_open s probeOpenCall = (SysResult.err r, s1)) :
    run_main P s =
      (⟨1, [Event.shmOpen probeOpenCall,
            Event.stderrMsg ("Failed to open shm: " ++ r ++ "\n")]⟩, s1) := by
  simp [run_main, h]

/-- Unfolding lemma: a run whose `shm_open` succeeds and whose
`shm_unlink` fails. -/
theorem run_main_unlink_err {σ : Type} (P : Platform σ) (s : σ) (fd : Nat)
    (s1 : σ) (r : String) (s2 : σ)
    (hopen : P.shm_open s probeOpenCall = (SysResult.ok fd, s1))
    (hun : P.shm_unlink s1 "/foo" = (SysResult.err r, s2)) :
    run_main P s =
      (⟨2, [Event.shmOpen probeOpenCall,
            Event.shmUnlink "/foo",
            Event.stderrMsg ("Failed to close shm: " ++ r ++ "\n")]⟩, s2) := by
  simp [run_main, hopen, hun]

/-- Unfolding lemma: a run on which both calls succeed. -/
theorem run_main_ok (σ : Type) (P : Platform σ) (s : σ) (fd : Nat)
    (s1 : σ) (s2 : σ)
    (hopen : P.shm_open s probeOpenCall = (SysResult.ok fd, s1))
    (hun : P.shm_unlink s1 "/foo" = (SysResult.ok (), s2)) :
    run_main P s =
      (⟨0, [Event.shmOpen probeOpenCall,
            Event.shmUnlink "/foo",
            Event.closeFd fd]⟩, s2) := by
  simp [run_main, hopen, hun]

/-- Claim C1: whenever the open-or-create of the shared-memory object
fails, the probe writes a diagnostic to the error stream carrying the
platform-provided error reason, terminates with exit status 1, and
never issues the unlink call. -/
theorem probe_open_failure_exits_one {σ : Type} (P : Platform σ) (s : σ)
    (r : String) (s1 : σ)
    (h : P.shm_open s probeOpenCall = (SysResult.err r, s1)) :
    (run_main P s).1.exitStatus = 1 ∧
    Event.stderrMsg ("Failed to open shm: " ++ r ++ "\n") ∈ (run_main P s).1.events ∧
    ∀ n : String, Event.shmUnlink n ∉ (run_main P s).1.events := by
  rw [run_main_open_err P s r s1 h]
  refine ⟨rfl, by simp, ?_⟩
  intro n hn
  simp at hn

/-- Witness for C1: on a platform whose open fails with a permission
error, the probe exits with status 1, reports the reason, and issues no
unlink. -/
theorem probe_open_failure_exits_one_witness :
    (run_main failOpenPlat ()).1.exitStatus = 1 ∧
    Event.stderrMsg ("Failed to open shm: " ++ "Permission denied" ++ "\n") ∈
      (run_main failOpenPlat ()).1.events ∧
    ∀ n : String, Event.shmUnlink n ∉ (run_main failOpenPlat ()).1.events :=
  probe_open_failure_exits_one failOpenPlat () "Permission denied" () rfl

/-- Claim C2: whenever the open succeeds but the unlink fails, the probe
writes a diagnostic to the error stream carrying the platform-provided
error reason and terminates with exit status 2. -/
theorem probe_unlink_failure_exits_two {σ : Type} (P : Platform σ) (s : σ)
    (fd : Nat) (s1 : σ) (r : String) (s2 : σ)
    (hopen : P.shm_open s probeOpenCall = (SysResult.ok fd, s1))
    (hun : P.shm_unlink s1 "/foo" = (SysResult.err r, s2)) :
    (run_main P s).1.exitStatus = 2 ∧
    Event.stderrMsg ("Failed to close shm: " ++ r ++ "\n") ∈ (run_main P s).1.events := by
  rw [run_main_unlink_err P s fd s1 r s2 hopen hun]
  exact ⟨rfl, by simp⟩

/-- Witness for C2: on a platform whose open succeeds and whose unlink
fails with a not-found error, the probe exits with status 2 and reports
the reason. -/
theorem probe_unlink_failure_exits_two_witness :
    (run_main unlinkFailPlat ()).1.exitStatus = 2 ∧
    Event.stderrMsg ("Failed to close shm: " ++ "No such file or directory" ++ "\n") ∈
      (run_main unlinkFailPlat ()).1.events :=
  probe_unlink_failure_exits_two unlinkFailPlat () 3 () "No such file or directory" ()
    rfl rfl

/-- Claim C3: whenever both the open and the unlink succeed, the file
descriptor returned by the open is closed before termination and the
probe exits with status 0. -/
theorem probe_success_closes_fd {σ : Type} (P : Platform σ) (s : σ)
    (fd : Nat) (s1 : σ) (s2 : σ)
    (hopen : P.shm_open s probeOpenCall = (SysResult.ok fd, s1))
    (hun : P.shm_unlink s1 "/foo" = (SysResult.ok (), s2)) :
    (run_main P s).1.exitStatus = 0 ∧
    Event.closeFd fd ∈ (run_main P s).1.events := by
  rw [run_main_ok σ P s fd s1 s2 hopen hun]
  exact ⟨rfl, by simp⟩

/-- Witness for C3: on a platform where both calls succeed, the probe
closes descriptor 3 and exits with status 0. -/
theorem probe_success_closes_fd_witness :
    (run_main allOkPlat ()).1.exitStatus = 0 ∧
    Event.closeFd 3 ∈ (run_main allOkPlat ()).1.events :=
  probe_success_closes_fd allOkPlat () 3 () () rfl rfl

/-- Claim C4: on every platform and every platform state, the probe's
exit status is 0, 1 or 2; no other terminal outcome is reachable. -/
theorem probe_exit_status_trichotomy {σ : Type} (P : Platform σ) (s : σ) :
    (run_main P s).1.exitStatus = 0 ∨
    (run_main P s).1.exitStatus = 1 ∨
    (run_main P s).1.exitStatus = 2 := by
  rcases hopen : P.shm_open s probeOpenCall with ⟨res, s1⟩
  cases res with
  | err r => right; left; rw [run_main_open_err P s r s1 hopen]
  | ok fd =>
    rcases hun : P.shm_unlink s1 "/foo" with ⟨ures, s2⟩
    cases ures with
    | err r => right; right; rw [run_main_unlink_err P s fd s1 r s2 hopen hun]
    | ok u =>
      left
      rw [run_main_ok σ P s fd s1 s2 hopen hun]

/-- Filtering out all entries named `n` leaves an association list in
which `n` is no longer found. -/
theorem lookup_filter_ne (n : String) (ns : NS) :
    List.lookup n (ns.filter fun p => !(p.1 == n)) = none := by
  induction ns with
  | nil => rfl
  | cons p t ih =>
    rcases p with ⟨a, b⟩
    rw [List.filter_cons]
    by_cases h : a = n
    · simp only [h, beq_self_eq_true, Bool.not_true, Bool.false_eq_true, if_false]
      exact ih
    · have hc : (!((a, b).1 == n)) = true := by simp [h]
      rw [hc]
      simp only [if_true, eq_self_iff_true]
      have hnp : (n == a) = false := by
        simp [beq_eq_false_iff_ne]
        exact fun hh => h hh.symm
      simp only [List.lookup, hnp]
      exact ih

/-- Helper: a run under normal platform semantics starting from a
namespace without `/foo` exits with status 0 and leaves the namespace
without `/foo`. -/
theorem probe_clean_run (ns : NS) (h : List.lookup "/foo" ns = none) :
    (run_main normalPlat ns).1.exitStatus = 0 ∧
    List.lookup "/foo" (run_main normalPlat ns).2 = none := by
  have hopen : normalPlat.shm_open ns probeOpenCall =
      (SysResult.ok 3, ("/foo", S_IRWXU) :: ns) := by
    simp [normalPlat, normalOpen, probeOpenCall, h]
  have hun : normalPlat.shm_unlink (("/foo", S_IRWXU) :: ns) "/foo" =
      (SysResult.ok (), (("/foo", S_IRWXU) :: ns).filter fun p => !(p.1 == "/foo")) := by
    simp [normalPlat, normalUnlink, List.lookup]
  rw [run_main_ok NS normalPlat ns 3 (("/foo", S_IRWXU) :: ns) _ hopen hun]
  exact ⟨rfl, lookup_filter_ne "/foo" (("/foo", S_IRWXU) :: ns)⟩

/-- Claim C5: starting from any namespace in which the probe's segment
name `/foo` is absent, a run under normal platform semantics exits with
status 0 and the final namespace does not contain `/foo`. -/
theorem probe_clean_namespace_run (ns : NS)
    (h : List.lookup "/foo" ns = none) :
    (run_main normalPlat ns).1.exitStatus = 0 ∧
    List.lookup "/foo" (run_main normalPlat ns).2 = none :=
  probe_clean_run ns h

/-- Witness for C5: from the empty namespace the probe exits with
status 0 and `/foo` is absent afterwards. -/
theorem probe_clean_namespace_run_witness :
    List.lookup "/foo" ([] : NS) = none ∧
    ((run_main normalPlat []).1.exitStatus = 0 ∧
     List.lookup "/foo" (run_main normalPlat []).2 = none) :=
  ⟨rfl, probe_clean_namespace_run [] rfl⟩

/-- Claim C6: starting from any namespace in which `/foo` is absent,
running the probe twice in succession under normal platform semantics
yields exit status 0 on both runs. -/
theorem probe_idempotent_double_run (ns : NS)
    (h : List.lookup "/foo" ns = none) :
    (run_main normalPlat ns).1.exitStatus = 0 ∧
    (run_main normalPlat (run_main normalPlat ns).2).1.exitStatus = 0 := by
  obtain ⟨h1, h2⟩ := probe_clean_run ns h
  exact ⟨h1, (probe_clean_run _ h2).1⟩

/-- Witness for C6: from the empty namespace, two successive runs both
exit with status 0. -/
theorem probe_idempotent_double_run_witness :
    List.lookup "/foo" ([] : NS) = none ∧
    ((run_main normalPlat []).1.exitStatus = 0 ∧
     (run_main normalPlat (run_main normalPlat []).2).1.exitStatus = 0) :=
  ⟨rfl, probe_idempotent_double_run [] rfl⟩

/-- Claim C7: every run issues exactly one `shm_open` call, namely
`shm_open ("/foo", O_RDONLY | O_CREAT, S_IRWXU)`; its access-mode bits
request read-only access and its `O_CREAT` bit is set, so under normal
semantics the call succeeds on any namespace, opening the object if
present and creating it otherwise (the name is present afterwards). -/
theorem probe_open_call_flags {σ : Type} (P : Platform σ) (s : σ) (ns : NS) :
    openCalls (run_main P s).1.events = [probeOpenCall] ∧
    probeOpenCall.name = "/foo" ∧
    probeOpenCall.flags = O_RDONLY ||| O_CREAT ∧
    probeOpenCall.flags &&& O_ACCMODE = O_RDONLY ∧
    probeOpenCall.flags &&& O_CREAT = O_CREAT ∧
    (normalOpen ns probeOpenCall).1 = SysResult.ok 3 ∧
    (List.lookup "/foo" (normalOpen ns probeOpenCall).2).isSome = true := by
  have hcalls : openCalls (run_main P s).1.events = [probeOpenCall] := by
    rcases hopen : P.shm_open s probeOpenCall with ⟨res, s1⟩
    cases res with
    | err r => rw [run_main_open_err P s r s1 hopen]; simp [openCalls]
    | ok fd =>
      rcases hun : P.shm_unlink s1 "/foo" with ⟨ures, s2⟩
      cases ures with
      | err r => rw [run_main_unlink_err P s fd s1 r s2 hopen hun]; simp [openCalls]
      | ok u =>
        cases u
        rw [run_main_ok σ P s fd s1 s2 hopen hun]; simp [openCalls]
  have hnorm : (normalOpen ns probeOpenCall).1 = SysResult.ok 3 ∧
      (List.lookup "/foo" (normalOpen ns probeOpenCall).2).isSome = true := by
    cases hl : List.lookup "/foo" ns with
    | none => simp [normalOpen, probeOpenCall, hl, List.lookup]
    | some m => simp [normalOpen, probeOpenCall, hl]
  exact ⟨hcalls, rfl, rfl, by decide, by decide, hnorm.1, hnorm.2⟩

/-- Claim C8: on every run that exits with status 1 or status 2 (either
failure path), no `close` of a file descriptor is ever performed. -/
theorem probe_failure_paths_never_close {σ : Type} (P : Platform σ) (s : σ)
    (h : (run_main P s).1.exitStatus = 1 ∨ (run_main P s).1.exitStatus = 2) :
    ∀ fd : Nat, Event.closeFd fd ∉ (run_main P s).1.events := by
  intro fd hmem
  rcases hopen : P.shm_open s probeOpenCall with ⟨res, s1⟩
  cases res with
  | err r =>
    rw [run_main_open_err P s r s1 hopen] at hmem
    simp at hmem
  | ok fd0 =>
    rcases hun : P.shm_unlink s1 "/foo" with ⟨ures, s2⟩
    cases ures with
    | err r =>
      rw [run_main_unlink_err P s fd0 s1 r s2 hopen hun] at hmem
      simp at hmem
    | ok u =>
      cases u
      rw [run_main_ok σ P s fd0 s1 s2 hopen hun] at h
      simp at h

/-- Witness for C8: on a platform whose open fails, the run exits with
status 1 and descriptor 3 is never closed. -/
theorem probe_failure_paths_never_close_witness :
    ((run_main failOpenPlat ()).1.exitStatus = 1 ∨
     (run_main failOpenPlat ()).1.exitStatus = 2) ∧
    Event.closeFd 3 ∉ (run_main failOpenPlat ()).1.events :=
  ⟨Or.inl rfl, probe_failure_paths_never_close failOpenPlat () (Or.inl rfl) 3⟩

/-- Claim C9: when the probe's open creates the object (the name was
absent), it is created with permission bits `S_IRWXU`, i.e. owner read,
write and execute (octal 0700), even though the call's access-mode bits
only request read-only access. -/
theorem probe_create_mode_irwxu (ns : NS)
    (h : List.lookup "/foo" ns = none) :
    List.lookup "/foo" (normalOpen ns probeOpenCall).2 = some S_IRWXU ∧
    probeOpenCall.mode = S_IRWXU ∧
    S_IRWXU = S_IRUSR ||| S_IWUSR ||| S_IXUSR ∧
    S_IRWXU = 448 ∧
    probeOpenCall.flags &&& O_ACCMODE = O_RDONLY := by
  refine ⟨?_, rfl, by decide, by decide, by decide⟩
  simp [normalOpen, probeOpenCall, h, List.lookup]

/-- Witness for C9: creating from the empty namespace records `/foo`
with permission bits `S_IRWXU`. -/
theorem probe_create_mode_irwxu_witness :
    List.lookup "/foo" ([] : NS) = none ∧
    (List.lookup "/foo" (normalOpen [] probeOpenCall).2 = some S_IRWXU ∧
     probeOpenCall.mode = S_IRWXU ∧
     S_IRWXU = S_IRUSR ||| S_IWUSR ||| S_IXUSR ∧
     S_IRWXU = 448 ∧
     probeOpenCall.flags &&& O_ACCMODE = O_RDONLY) :=
  ⟨rfl, probe_create_mode_irwxu [] rfl⟩

/-- Claim C10: on the unlink-failure path the only stderr line is
`Failed to close shm: <reason>` — it labels the failed operation as a
close rather than an unlink — and the run exits with status 2. -/
theorem probe_unlink_failure_message_says_close {σ : Type} (P : Platform σ)
    (s : σ) (fd : Nat) (s1 : σ) (r : String) (s2 : σ)
    (hopen : P.shm_open s probeOpenCall = (SysResult.ok fd, s1))
    (hun : P.shm_unlink s1 "/foo" = (SysResult.err r, s2)) :
    stderrMsgs (run_main P s).1.events = ["Failed to close shm: " ++ r ++ "\n"] ∧
    (run_main P s).1.exitStatus = 2 := by
  rw [run_main_unlink_err P s fd s1 r s2 hopen hun]
  exact ⟨by simp [stderrMsgs], rfl⟩

/-- Witness for C10: on a platform whose unlink fails with a not-found
error, the single stderr line says `Failed to close shm` and the run
exits with status 2. -/
theorem probe_unlink_failure_message_says_close_witness :
    unlinkFailPlat.shm_open () probeOpenCall = (SysResult.ok 3, ()) ∧
    unlinkFailPlat.shm_unlink () "/foo" = (SysResult.err "No such file or directory", ()) ∧
    (stderrMsgs (run_main unlinkFailPlat ()).1.events =
      ["Failed to close shm: " ++ "No such file or directory" ++ "\n"] ∧
     (run_main unlinkFailPlat ()).1.exitStatus = 2) :=
  ⟨rfl, rfl,
    probe_unlink_failure_message_says_close unlinkFailPlat () 3 ()
      "No such file or directory" () rfl rfl⟩

end TestShm
